import Mathlib

/-!
Verification of the digital-fte watcher/orchestrator core.

The Python sources (scripts/base_watcher.py, scripts/filesystem_watcher.py,
scripts/gmail_watcher.py, scripts/orchestrator.py) are shallowly embedded:
pure helpers become Lean functions, stateful routines become explicit
state-passing functions over a record of the watcher state, and the
fallible effects (file copy, file write, ledger persist, agent invocation)
are driven by explicit success oracles so that every exception path of the
source is a reachable branch of the model.
-/

/-- Membership test of `needle` as a contiguous substring of `hay`,
modelling the Python `in` operator on strings (character lists). -/
def charsStartWith : List Char → List Char → Bool
  | _, [] => true
  | [], _ :: _ => false
  | a :: as, b :: bs => a == b && charsStartWith as bs

/-- `hasSub needle hay` holds when `needle` occurs contiguously in `hay`. -/
def hasSub (needle : List Char) : List Char → Bool
  | [] => needle.isEmpty
  | c :: t => charsStartWith (c :: t) needle || hasSub needle t

/-- Python `needle in hay` for strings. -/
def inStr (needle hay : String) : Bool :=
  hasSub needle.data hay.data

/-- Python `str.lower()`, character by character. -/
def pyLower (s : String) : String :=
  String.mk (s.data.map Char.toLower)

namespace BaseW

/-- Critical keywords of `BaseWatcher.get_priority`. -/
def critical_keywords : List String := ["urgent", "asap", "emergency", "help", "critical"]

/-- High keywords of `BaseWatcher.get_priority`. -/
def high_keywords : List String := ["invoice", "payment", "deadline", "due", "important"]

/-- Low keywords of `BaseWatcher.get_priority`. -/
def low_keywords : List String := ["newsletter", "unsubscribe", "promotion", "offer"]

/-- `any(kw in content_lower for kw in kws)` over the lowercased content. -/
def matchesAny (kws : List String) (content : String) : Bool :=
  kws.any (fun kw => inStr kw (pyLower content))

/-- `BaseWatcher.get_priority`: keyword classification with precedence
critical, then high, then low, defaulting to normal. -/
def get_priority (content : String) : String :=
  if matchesAny critical_keywords content then "critical"
  else if matchesAny high_keywords content then "high"
  else if matchesAny low_keywords content then "low"
  else "normal"

/-- The `invalid_chars` string of `BaseWatcher.sanitize_filename`.  Note the
source lists the FULLWIDTH QUESTION MARK U+FF1F, not the ASCII question
mark. -/
def invalid_chars : List Char := ['<', '>', ':', '\"', '/', '\\', '|', '？', '*']

/-- `BaseWatcher.sanitize_filename`: replace each occurrence of an invalid
character by an underscore, then cap the result at 100 characters. -/
def sanitize_filename (name : String) : String :=
  let replaced := String.mk (name.data.map (fun c => if invalid_chars.contains c then '_' else c))
  if replaced.length > 100 then String.mk (replaced.data.take 100) else replaced

/-- `os.getenv('DRY_RUN', 'true').lower() == 'true'` from
`BaseWatcher.__init__`: the argument is `none` when the variable is
unset. -/
def dry_run_flag (env : Option String) : Bool :=
  pyLower (env.getD "true") == "true"

end BaseW

/-- Persistent side effects performed by the materialization paths
(`FilesystemWatcher.process_file`, `GmailWatcher.create_action_file`),
recorded in execution order. -/
inductive Ev where
  | copyPayload : String → Ev
  | writeAction : String → Ev
  | admitMem : String → Ev
  | persistLedger : List String → Ev
deriving DecidableEq

/-- Persistent state touched by one watcher: the in-memory processed set
(`self.processed_files` / `self.processed_ids`), its on-disk copy (the
ledger cache file under `Logs/`), and the names present in the
`Needs_Action` folder. -/
structure WState where
  processed : List String
  ledgerDisk : List String
  needsAction : List String
deriving DecidableEq

/-- Result of one materialization call: the state after the call, the
events emitted in order, and the Python return value (`None` on a caught
exception). -/
structure StepResult where
  state : WState
  trace : List Ev
  ret : Option String
deriving DecidableEq

/-- A wall-clock moment as carried by `datetime.now()`; `millis` is the
sub-second component that `strftime('%Y%m%d_%H%M%S')` discards. -/
structure Moment where
  year : Nat
  month : Nat
  day : Nat
  hour : Nat
  minute : Nat
  second : Nat
  millis : Nat
deriving DecidableEq

/-- Zero-padded two-digit field of `strftime`. -/
def pad2 (n : Nat) : String :=
  if n < 10 then "0" ++ toString n else toString n

/-- Zero-padded four-digit field of `strftime`. -/
def pad4 (n : Nat) : String :=
  if n < 10 then "000" ++ toString n
  else if n < 100 then "00" ++ toString n
  else if n < 1000 then "0" ++ toString n
  else toString n

/-- `datetime.now().strftime('%Y%m%d_%H%M%S')`: second resolution, the
sub-second part of the moment is dropped. -/
def strftime_ts (t : Moment) : String :=
  pad4 t.year ++ pad2 t.month ++ pad2 t.day ++ "_" ++
  pad2 t.hour ++ pad2 t.minute ++ pad2 t.second

namespace FsW

/-- `f"FILE_{safe_name}_{timestamp}.md"` from
`FilesystemWatcher.process_file` (lines 304-307). -/
def action_filename (stem : String) (t : Moment) : String :=
  "FILE_" ++ BaseW.sanitize_filename stem ++ "_" ++ strftime_ts t ++ ".md"

/-- `FilesystemWatcher.process_file`.  The boolean oracles decide whether
each fallible step succeeds: `readOk` covers the hash/stat reads at the
top of the `try` block, `copyOk` covers `shutil.copy2`, `writeOk` covers
`action_path.write_text`, and `persistOk` covers the write inside
`_save_processed_files` (which catches its own exception and is
non-fatal).  Any uncaught failure lands in the `except` clause, which
returns `None` and performs no further effects. -/
def process_file (dryRun readOk copyOk writeOk persistOk : Bool)
    (fileHash payloadName actionName : String) (s : WState) : StepResult :=
  if readOk = false then ⟨s, [], none⟩
  else if s.processed.contains fileHash then ⟨s, [], none⟩
  else if dryRun then ⟨s, [], some payloadName⟩
  else if copyOk = false then ⟨s, [], none⟩
  else
    let s1 : WState := { s with needsAction := s.needsAction ++ [payloadName] }
    if writeOk = false then ⟨s1, [Ev.copyPayload payloadName], none⟩
    else
      let s2 : WState := { s1 with needsAction := s1.needsAction ++ [actionName] }
      let s3 : WState := { s2 with processed := s2.processed ++ [fileHash] }
      if persistOk then
        ⟨{ s3 with ledgerDisk := s3.processed },
         [Ev.copyPayload payloadName, Ev.writeAction actionName,
          Ev.admitMem fileHash, Ev.persistLedger s3.processed],
         some payloadName⟩
      else
        ⟨s3,
         [Ev.copyPayload payloadName, Ev.writeAction actionName, Ev.admitMem fileHash],
         some payloadName⟩

/-- One directory entry observed by `FilesystemWatcher.check_for_updates`:
its name, whether it is a regular file, whether reading it for hashing
succeeds, and its content hash when readable. -/
structure FsEntry where
  name : String
  isFile : Bool
  readable : Bool
  hash : String
deriving DecidableEq

/-- The `for filepath in self.drop_folder.iterdir()` loop body.  Hashing an
unreadable file raises, and the `try` of `check_for_updates` wraps the
whole loop, so the exception aborts the iteration; `none` models reaching
the `except` clause. -/
def check_loop (processed : List String) : List FsEntry → List String → Option (List String)
  | [], acc => some acc
  | e :: rest, acc =>
    if e.isFile && !(charsStartWith e.name.data ['.']) then
      if e.readable then
        if processed.contains e.hash then check_loop processed rest acc
        else check_loop processed rest (acc ++ [e.name])
      else none
    else check_loop processed rest acc

/-- `FilesystemWatcher.check_for_updates`: the `except` clause logs and
returns the empty list, discarding any candidates collected before the
failure. -/
def check_for_updates (files : List FsEntry) (processed : List String) : List String :=
  (check_loop processed files []).getD []

end FsW

namespace GmailW

/-- A Gmail message as returned by the list/get calls: provider id and
snippet text. -/
structure GMsg where
  id : String
  snippet : String
deriving DecidableEq

/-- The `maxResults=10` literal passed to `users().messages().list`. -/
def max_results : Nat := 10

/-- `GmailWatcher.check_for_updates`: when authentication fails or the API
call raises, the cycle yields the empty list; otherwise the server returns
at most `max_results` matching messages and the already-processed ids are
filtered out. -/
def check_for_updates (authOk fetchOk : Bool) (unread : List GMsg)
    (processed : List String) : List GMsg :=
  if authOk = false then []
  else if fetchOk = false then []
  else (unread.take max_results).filter (fun m => !(processed.contains m.id))

/-- `f"EMAIL_{safe_subject}_{timestamp}.md"` from
`GmailWatcher.create_action_file` (lines 266-268); the subject is first
truncated to 50 characters. -/
def email_filename (subject : String) (t : Moment) : String :=
  "EMAIL_" ++ BaseW.sanitize_filename (String.mk (subject.data.take 50)) ++ "_" ++
  strftime_ts t ++ ".md"

/-- `GmailWatcher.create_action_file`.  `parseOk` covers reading the
headers out of the item, `writeOk` covers `filepath.write_text`, and
`persistOk` covers the write inside `_save_processed_ids` (non-fatal).
The surrounding `try` returns `None` on an uncaught failure. -/
def create_action_file (dryRun parseOk writeOk persistOk : Bool)
    (msgId filename : String) (s : WState) : StepResult :=
  if parseOk = false then ⟨s, [], none⟩
  else if dryRun then ⟨s, [], some filename⟩
  else if writeOk = false then ⟨s, [], none⟩
  else
    let s1 : WState := { s with needsAction := s.needsAction ++ [filename] }
    let s2 : WState := { s1 with processed := s1.processed ++ [msgId] }
    if persistOk then
      ⟨{ s2 with ledgerDisk := s2.processed },
       [Ev.writeAction filename, Ev.admitMem msgId, Ev.persistLedger s2.processed],
       some filename⟩
    else
      ⟨s2, [Ev.writeAction filename, Ev.admitMem msgId], some filename⟩

end GmailW

namespace Orch

/-- Outcome of one `subprocess.run(['claude', ...])` call inside
`Orchestrator.ralph_loop`: captured output, `subprocess.TimeoutExpired`,
or any other exception (in particular `FileNotFoundError` when the agent
binary is absent). -/
inductive AgentOutcome where
  | ok : String → AgentOutcome
  | timeout : AgentOutcome
  | err : String → AgentOutcome
deriving DecidableEq

/-- State of the Ralph loop: the `iteration` counter, the number of
`subprocess.run` invocation attempts, the `completed` flag, and
`state['last_output']`. -/
structure RalphState where
  iteration : Nat
  invocations : Nat
  completed : Bool
  lastOutput : String
deriving DecidableEq

/-- `output[-1000:] if len(output) > 1000 else output`. -/
def truncateOutput (s : String) : String :=
  if s.length > 1000 then String.mk (s.data.drop (s.data.length - 1000)) else s

/-- `f'<promise>{completion_promise}</promise>'`. -/
def promiseTag (promise : String) : String :=
  "<promise>" ++ promise ++ "</promise>"

/-- The agent-invocation section of one loop iteration (the inner `try`):
in dry-run only the synthetic output is recorded; otherwise one
`subprocess.run` attempt is made and its outcome handled as in the
source. -/
def ralphStep (agent : Nat → AgentOutcome) (promise : String) (dryRun : Bool)
    (i : Nat) (st : RalphState) : RalphState :=
  if dryRun then { st with lastOutput := "Dry run - no output" }
  else
    match agent i with
    | AgentOutcome.ok out =>
      let st1 := { st with invocations := st.invocations + 1,
                           lastOutput := truncateOutput out }
      if inStr (promiseTag promise) out then { st1 with completed := true } else st1
    | AgentOutcome.timeout =>
      { st with invocations := st.invocations + 1, lastOutput := "Timeout - retrying" }
    | AgentOutcome.err m =>
      { st with invocations := st.invocations + 1, lastOutput := "Error: " ++ m }

/-- Whether the source's promise check fires on this outcome (the check
only runs in the successful-capture branch). -/
def hasPromise (promise : String) : AgentOutcome → Bool
  | AgentOutcome.ok out => inStr (promiseTag promise) out
  | AgentOutcome.timeout => false
  | AgentOutcome.err _ => false

/-- The `while iteration < self.max_iterations` loop of
`Orchestrator.ralph_loop`, with the remaining budget as fuel.
`needsCount i` is the `Needs_Action` file count observed at the start of
iteration `i`; `agent i` is the outcome of the invocation attempted in
iteration `i`. -/
def ralphAux (needsCount : Nat → Nat) (agent : Nat → AgentOutcome)
    (promise : String) (checkMove dryRun : Bool) : Nat → RalphState → RalphState
  | 0, st => st
  | Nat.succ fuel, st =>
    let i := st.iteration + 1
    let st0 : RalphState := { st with iteration := i }
    if checkMove && (needsCount i == 0) then { st0 with completed := true }
    else
      let st1 := ralphStep agent promise dryRun i st0
      if st1.completed then st1
      else ralphAux needsCount agent promise checkMove dryRun fuel st1

/-- `Orchestrator.ralph_loop`, starting from iteration 0 with the
`completed` flag clear. -/
def ralph_loop (maxIterations : Nat) (needsCount : Nat → Nat)
    (agent : Nat → AgentOutcome) (promise : String)
    (checkMove dryRun : Bool) : RalphState :=
  ralphAux needsCount agent promise checkMove dryRun maxIterations
    { iteration := 0, invocations := 0, completed := false, lastOutput := "" }

/-- The keys of the `watcher_scripts` table in
`Orchestrator.start_watcher`. -/
def known_watchers : List String := ["gmail", "filesystem"]

/-- Result of `Orchestrator.start_watcher`: the returned boolean, the
process table afterwards, and whether a new process was launched. -/
structure SupResult where
  ok : Bool
  processes : List (String × Nat)
  launched : Bool
deriving DecidableEq

/-- `Orchestrator.start_watcher`: unknown name or missing script fail
early; otherwise `subprocess.Popen` is attempted (`launchOk` is its
success oracle) and the handle is stored with
`self.processes[watcher_name] = proc`, which overwrites any handle
already recorded under that name. -/
def start_watcher (processes : List (String × Nat)) (name : String)
    (scriptExists launchOk : Bool) (newPid : Nat) : SupResult :=
  if !(known_watchers.contains name) then ⟨false, processes, false⟩
  else if !scriptExists then ⟨false, processes, false⟩
  else if !launchOk then ⟨false, processes, false⟩
  else ⟨true, (processes.filter (fun p => p.1 != name)) ++ [(name, newPid)], true⟩

end Orch

/-! ## Theorems -/

/-- Cancellation of a shared prefix and suffix around a string: used to
show that distinct timestamp renderings give distinct generated
filenames. -/
theorem string_mid_cancel (pre suf m1 m2 : String)
    (h : pre ++ m1 ++ suf = pre ++ m2 ++ suf) : m1 = m2 := by
  have hd : (pre ++ m1 ++ suf).data = (pre ++ m2 ++ suf).data := by rw [h]
  rw [String.data_append, String.data_append, String.data_append,
    String.data_append] at hd
  have h2 := List.append_cancel_right hd
  have h3 := List.append_cancel_left h2
  cases m1
  cases m2
  simp at h3
  rw [h3]

/-- C2: the priority classifier returns exactly one of the four tiers,
matching the lowercased content against the fixed keyword sets with
precedence critical, then high, then low, and returns normal when nothing
matches; the three published examples evaluate as claimed, and the result
is a function of the input text alone. -/
theorem spec_c2 :
    (∀ content : String,
      BaseW.get_priority content = "critical" ∨ BaseW.get_priority content = "high" ∨
      BaseW.get_priority content = "low" ∨ BaseW.get_priority content = "normal") ∧
    (∀ content : String, BaseW.matchesAny BaseW.critical_keywords content = true →
      BaseW.get_priority content = "critical") ∧
    (∀ content : String, BaseW.matchesAny BaseW.critical_keywords content = false →
      BaseW.matchesAny BaseW.high_keywords content = true →
      BaseW.get_priority content = "high") ∧
    (∀ content : String, BaseW.matchesAny BaseW.critical_keywords content = false →
      BaseW.matchesAny BaseW.high_keywords content = false →
      BaseW.matchesAny BaseW.low_keywords content = true →
      BaseW.get_priority content = "low") ∧
    (∀ content : String, BaseW.matchesAny BaseW.critical_keywords content = false →
      BaseW.matchesAny BaseW.high_keywords content = false →
      BaseW.matchesAny BaseW.low_keywords content = false →
      BaseW.get_priority content = "normal") ∧
    (∀ c1 c2 : String, c1 = c2 → BaseW.get_priority c1 = BaseW.get_priority c2) ∧
    BaseW.get_priority "URGENT: invoice due" = "critical" ∧
    BaseW.get_priority "Please unsubscribe from our newsletter" = "low" ∧
    BaseW.get_priority "Team lunch Friday" = "normal" := by
  refine ⟨?_, ?_, ?_, ?_, ?_, ?_, by decide, by decide, by decide⟩
  · intro content
    unfold BaseW.get_priority
    split
    · exact Or.inl rfl
    · split
      · exact Or.inr (Or.inl rfl)
      · split
        · exact Or.inr (Or.inr (Or.inl rfl))
        · exact Or.inr (Or.inr (Or.inr rfl))
  · intro content h
    simp [BaseW.get_priority, h]
  · intro content h1 h2
    simp [BaseW.get_priority, h1, h2]
  · intro content h1 h2 h3
    simp [BaseW.get_priority, h1, h2, h3]
  · intro content h1 h2 h3
    simp [BaseW.get_priority, h1, h2, h3]
  · intro c1 c2 h
    rw [h]

/-- Witness for C2 at concrete inputs, one per precedence branch plus the
determinism conjunct. -/
theorem spec_c2_witness :
    BaseW.get_priority "urgent" = "critical" ∧
    BaseW.get_priority "invoice" = "high" ∧
    BaseW.get_priority "newsletter" = "low" ∧
    BaseW.get_priority "hello" = "normal" ∧
    BaseW.get_priority "x" = BaseW.get_priority "x" :=
  ⟨spec_c2.2.1 "urgent" (by decide),
   spec_c2.2.2.1 "invoice" (by decide) (by decide),
   spec_c2.2.2.2.1 "newsletter" (by decide) (by decide) (by decide),
   spec_c2.2.2.2.2.1 "hello" (by decide) (by decide) (by decide),
   spec_c2.2.2.2.2.2.1 "x" "x" rfl⟩

/-- C8: evaluating `sanitize_filename` at the failing input.  The ASCII
question mark survives sanitization, because the source's
invalid-character list contains the fullwidth question mark U+FF1F in its
place; the other hostile characters are replaced as claimed. -/
theorem spec_c8_eval :
    BaseW.sanitize_filename "?" = "?" ∧
    '?' ∈ (BaseW.sanitize_filename "what?.pdf").data ∧
    BaseW.sanitize_filename "a<b>c:d\"e/f\\g|h*i" = "a_b_c_d_e_f_g_h_i" := by
  exact ⟨by decide, by decide, by decide⟩

/-- C9 counterexample: with `DRY_RUN=yes` — a value other than `false` in
any casing — the claim predicts dry-run stays enabled, but
`dry_run_flag` evaluates to `false`, so processing runs with persistent
side effects. -/
theorem spec_c9_counterexample :
    BaseW.dry_run_flag (some "yes") = false ∧ pyLower "yes" ≠ "false" :=
  ⟨by decide, by decide⟩

/-- C9 amended: dry-run is enabled exactly when DRY_RUN is unset or equal
to `true` case-insensitively (any other value, not only `false`, disables
it); while the flag is enabled, both materialization paths leave the
persistent state untouched and emit no effect events. -/
theorem spec_c9_amended :
    BaseW.dry_run_flag none = true ∧
    (∀ v : String, BaseW.dry_run_flag (some v) = true ↔ pyLower v = "true") ∧
    (∀ (readOk copyOk writeOk persistOk : Bool) (fileHash payloadName actionName : String)
      (s : WState),
      (FsW.process_file true readOk copyOk writeOk persistOk fileHash payloadName
        actionName s).state = s ∧
      (FsW.process_file true readOk copyOk writeOk persistOk fileHash payloadName
        actionName s).trace = []) ∧
    (∀ (parseOk writeOk persistOk : Bool) (msgId filename : String) (s : WState),
      (GmailW.create_action_file true parseOk writeOk persistOk msgId filename s).state = s ∧
      (GmailW.create_action_file true parseOk writeOk persistOk msgId filename s).trace = []) := by
  refine ⟨by decide, ?_, ?_, ?_⟩
  · intro v
    simp [BaseW.dry_run_flag]
  · intro readOk copyOk writeOk persistOk fileHash payloadName actionName s
    cases readOk
    · simp [FsW.process_file]
    · by_cases hc : fileHash ∈ s.processed <;> simp [FsW.process_file, hc]
  · intro parseOk writeOk persistOk msgId filename s
    cases parseOk <;> simp [GmailW.create_action_file]

/-- C10: a Gmail poll cycle returns at most ten candidate messages: the
source query carries `maxResults=10`, the processed-id filter only
shrinks the list, and every error path returns the empty list. -/
theorem spec_c10 :
    ∀ (authOk fetchOk : Bool) (unread : List GmailW.GMsg) (processed : List String),
      (GmailW.check_for_updates authOk fetchOk unread processed).length ≤ 10 := by
  intro authOk fetchOk unread processed
  cases authOk
  · simp [GmailW.check_for_updates]
  · cases fetchOk
    · simp [GmailW.check_for_updates]
    · show ((unread.take GmailW.max_results).filter _).length ≤ 10
      exact le_trans (List.length_filter_le _ _) (List.length_take_le _ _)

/-- C4: evaluating the filesystem poll cycle at the failing input.  One
unreadable file among the candidates makes `check_for_updates` reach its
`except` clause and return the empty list, so the valid candidate is not
materialized in that cycle — regardless of iteration order — although
the same cycle without the unreadable file yields it. -/
theorem spec_c4_eval :
    FsW.check_for_updates
      [⟨"good.txt", true, true, "h1"⟩, ⟨"bad.txt", true, false, "h2"⟩] [] = [] ∧
    FsW.check_for_updates
      [⟨"bad.txt", true, false, "h2"⟩, ⟨"good.txt", true, true, "h1"⟩] [] = [] ∧
    FsW.check_for_updates [⟨"good.txt", true, true, "h1"⟩] [] = ["good.txt"] := by
  exact ⟨by decide, by decide, by decide⟩

/-- C6 counterexample: starting the `filesystem` watcher while a handle
for that name is already recorded returns success, launches a second
process and silently replaces the stored handle — it is not rejected. -/
theorem spec_c6_counterexample :
    (Orch.start_watcher [("filesystem", 100)] "filesystem" true true 200).ok = true ∧
    (Orch.start_watcher [("filesystem", 100)] "filesystem" true true 200).launched = true ∧
    (Orch.start_watcher [("filesystem", 100)] "filesystem" true true 200).processes
      = [("filesystem", 200)] := by
  exact ⟨by decide, by decide, by decide⟩

/-- C6 amended: `start_watcher` never checks whether the name is already
running: for every known watcher name, whatever the current process
table, the call launches a process, records the new handle under the
name, and returns success. -/
theorem spec_c6_amended :
    ∀ (procs : List (String × Nat)) (name : String) (pid : Nat),
      Orch.known_watchers.contains name = true →
      (Orch.start_watcher procs name true true pid).ok = true ∧
      (Orch.start_watcher procs name true true pid).launched = true ∧
      (name, pid) ∈ (Orch.start_watcher procs name true true pid).processes := by
  intro procs name pid h
  have h2 : name ∈ Orch.known_watchers := by simpa using h
  simp [Orch.start_watcher, h2]

/-- Witness for C6 amended on a concrete process table. -/
theorem spec_c6_witness :
    (Orch.start_watcher [("filesystem", 100)] "gmail" true true 7).ok = true ∧
    (Orch.start_watcher [("filesystem", 100)] "gmail" true true 7).launched = true ∧
    ("gmail", 7) ∈ (Orch.start_watcher [("filesystem", 100)] "gmail" true true 7).processes :=
  spec_c6_amended [("filesystem", 100)] "gmail" 7 (by decide)

/-- C7 counterexample: two distinct moments of the same run falling in
the same second produce identical generated filenames for both watchers,
so the later record overwrites the earlier one. -/
theorem spec_c7_counterexample :
    (⟨2026, 1, 2, 3, 4, 5, 0⟩ : Moment) ≠ ⟨2026, 1, 2, 3, 4, 5, 999⟩ ∧
    FsW.action_filename "report" ⟨2026, 1, 2, 3, 4, 5, 0⟩ =
      FsW.action_filename "report" ⟨2026, 1, 2, 3, 4, 5, 999⟩ ∧
    GmailW.email_filename "Weekly report" ⟨2026, 1, 2, 3, 4, 5, 0⟩ =
      GmailW.email_filename "Weekly report" ⟨2026, 1, 2, 3, 4, 5, 999⟩ := by
  exact ⟨by decide, by decide, by decide⟩

/-- C7 amended: two materializations with the same human label yield
distinct, non-overwriting filenames whenever their second-resolution
timestamp renderings differ; only materializations within the same
second collide. -/
theorem spec_c7_amended :
    ∀ (stem subject : String) (t1 t2 : Moment),
      strftime_ts t1 ≠ strftime_ts t2 →
      FsW.action_filename stem t1 ≠ FsW.action_filename stem t2 ∧
      GmailW.email_filename subject t1 ≠ GmailW.email_filename subject t2 := by
  intro stem subject t1 t2 hts
  constructor
  · intro h
    exact hts (string_mid_cancel ("FILE_" ++ BaseW.sanitize_filename stem ++ "_") ".md"
      (strftime_ts t1) (strftime_ts t2) h)
  · intro h
    exact hts (string_mid_cancel
      ("EMAIL_" ++ BaseW.sanitize_filename (String.mk (subject.data.take 50)) ++ "_") ".md"
      (strftime_ts t1) (strftime_ts t2) h)

/-- Witness for C7 amended: one second apart, the filenames differ. -/
theorem spec_c7_witness :
    FsW.action_filename "report" ⟨2026, 1, 2, 3, 4, 5, 0⟩ ≠
      FsW.action_filename "report" ⟨2026, 1, 2, 3, 4, 6, 0⟩ ∧
    GmailW.email_filename "Weekly report" ⟨2026, 1, 2, 3, 4, 5, 0⟩ ≠
      GmailW.email_filename "Weekly report" ⟨2026, 1, 2, 3, 4, 6, 0⟩ :=
  spec_c7_amended "report" "Weekly report" ⟨2026, 1, 2, 3, 4, 5, 0⟩ ⟨2026, 1, 2, 3, 4, 6, 0⟩
    (by decide)

/-- The Ralph loop never completes while the completion predicate stays
false: with every observed `Needs_Action` count nonzero and no invocation
outcome carrying the promise tag, each remaining iteration performs
exactly one invocation attempt and leaves the `completed` flag clear. -/
theorem ralph_no_progress (needsCount : Nat → Nat) (agent : Nat → Orch.AgentOutcome)
    (promise : String)
    (h1 : ∀ i, needsCount i ≠ 0)
    (h2 : ∀ i, Orch.hasPromise promise (agent i) = false) :
    ∀ (fuel : Nat) (st : Orch.RalphState), st.completed = false →
      (Orch.ralphAux needsCount agent promise true false fuel st).invocations
          = st.invocations + fuel ∧
      (Orch.ralphAux needsCount agent promise true false fuel st).iteration
          = st.iteration + fuel ∧
      (Orch.ralphAux needsCount agent promise true false fuel st).completed = false := by
  intro fuel
  induction fuel with
  | zero => intro st hst; simp [Orch.ralphAux, hst]
  | succ n ih =>
    intro st hst
    have hc : (needsCount (st.iteration + 1) == 0) = false := by
      simpa using h1 (st.iteration + 1)
    cases hA : agent (st.iteration + 1) with
    | ok out =>
      have hp : inStr (Orch.promiseTag promise) out = false := by
        have h := h2 (st.iteration + 1)
        rw [hA] at h
        simpa [Orch.hasPromise] using h
      simp only [Orch.ralphAux, Orch.ralphStep, hc, hA, hst, Bool.true_and,
        Bool.false_eq_true, if_false, hp]
      obtain ⟨e1, e2, e3⟩ := ih
        { iteration := st.iteration + 1, invocations := st.invocations + 1,
          completed := false, lastOutput := Orch.truncateOutput out } rfl
      refine ⟨?_, ?_, e3⟩
      · rw [e1]
        show st.invocations + 1 + n = st.invocations + (n + 1)
        omega
      · rw [e2]
        show st.iteration + 1 + n = st.iteration + (n + 1)
        omega
    | timeout =>
      simp only [Orch.ralphAux, Orch.ralphStep, hc, hA, hst, Bool.true_and,
        Bool.false_eq_true, if_false]
      obtain ⟨e1, e2, e3⟩ := ih
        { iteration := st.iteration + 1, invocations := st.invocations + 1,
          completed := false, lastOutput := "Timeout - retrying" } rfl
      refine ⟨?_, ?_, e3⟩
      · rw [e1]
        show st.invocations + 1 + n = st.invocations + (n + 1)
        omega
      · rw [e2]
        show st.iteration + 1 + n = st.iteration + (n + 1)
        omega
    | err m =>
      simp only [Orch.ralphAux, Orch.ralphStep, hc, hA, hst, Bool.true_and,
        Bool.false_eq_true, if_false]
      obtain ⟨e1, e2, e3⟩ := ih
        { iteration := st.iteration + 1, invocations := st.invocations + 1,
          completed := false, lastOutput := "Error: " ++ m } rfl
      refine ⟨?_, ?_, e3⟩
      · rw [e1]
        show st.invocations + 1 + n = st.invocations + (n + 1)
        omega
      · rw [e2]
        show st.iteration + 1 + n = st.iteration + (n + 1)
        omega

/-- C3: with `max_iterations = 5`, a never-satisfied completion predicate
(nonzero `Needs_Action` count on every iteration and no completion token
in any agent output) yields exactly five agent invocations and ends
exhausted with the `completed` flag clear; a count of zero observed
before the first invocation yields zero invocations and ends completed
after iteration 1. -/
theorem spec_c3 :
    ∀ (needsCount : Nat → Nat) (agent : Nat → Orch.AgentOutcome) (promise : String),
    ((∀ i, needsCount i ≠ 0) → (∀ i, Orch.hasPromise promise (agent i) = false) →
      (Orch.ralph_loop 5 needsCount agent promise true false).invocations = 5 ∧
      (Orch.ralph_loop 5 needsCount agent promise true false).iteration = 5 ∧
      (Orch.ralph_loop 5 needsCount agent promise true false).completed = false) ∧
    (needsCount 1 = 0 →
      (Orch.ralph_loop 5 needsCount agent promise true false).invocations = 0 ∧
      (Orch.ralph_loop 5 needsCount agent promise true false).iteration = 1 ∧
      (Orch.ralph_loop 5 needsCount agent promise true false).completed = true) := by
  intro needsCount agent promise
  constructor
  · intro h1 h2
    obtain ⟨e1, e2, e3⟩ := ralph_no_progress needsCount agent promise h1 h2 5
      { iteration := 0, invocations := 0, completed := false, lastOutput := "" } rfl
    exact ⟨by simpa [Orch.ralph_loop] using e1, by simpa [Orch.ralph_loop] using e2, e3⟩
  · intro h
    simp [Orch.ralph_loop, Orch.ralphAux, h]

/-- Witness for C3: an agent that always answers without the token against
a never-empty queue, and a queue empty from the start. -/
theorem spec_c3_witness :
    ((Orch.ralph_loop 5 (fun _ => 1) (fun _ => Orch.AgentOutcome.ok "still working")
        "TASK_COMPLETE" true false).invocations = 5 ∧
     (Orch.ralph_loop 5 (fun _ => 1) (fun _ => Orch.AgentOutcome.ok "still working")
        "TASK_COMPLETE" true false).iteration = 5 ∧
     (Orch.ralph_loop 5 (fun _ => 1) (fun _ => Orch.AgentOutcome.ok "still working")
        "TASK_COMPLETE" true false).completed = false) ∧
    ((Orch.ralph_loop 5 (fun _ => 0) (fun _ => Orch.AgentOutcome.ok "x")
        "TASK_COMPLETE" true false).invocations = 0 ∧
     (Orch.ralph_loop 5 (fun _ => 0) (fun _ => Orch.AgentOutcome.ok "x")
        "TASK_COMPLETE" true false).iteration = 1 ∧
     (Orch.ralph_loop 5 (fun _ => 0) (fun _ => Orch.AgentOutcome.ok "x")
        "TASK_COMPLETE" true false).completed = true) :=
  ⟨(spec_c3 (fun _ => 1) (fun _ => Orch.AgentOutcome.ok "still working") "TASK_COMPLETE").1
      (fun i => (by decide : (1 : Nat) ≠ 0))
      (fun i => (by decide :
        Orch.hasPromise "TASK_COMPLETE" (Orch.AgentOutcome.ok "still working") = false)),
   (spec_c3 (fun _ => 0) (fun _ => Orch.AgentOutcome.ok "x") "TASK_COMPLETE").2 rfl⟩

/-- C5 counterexample: with the agent binary absent (every invocation
raising file-not-found) and files still pending, the loop does not stop
after the first failed attempt: it spends all five budgeted iterations on
further invocation attempts before ending exhausted. -/
theorem spec_c5_counterexample :
    (Orch.ralph_loop 5 (fun _ => 1)
        (fun _ => Orch.AgentOutcome.err "No such file or directory: claude")
        "TASK_COMPLETE" true false).invocations = 5 ∧
    (Orch.ralph_loop 5 (fun _ => 1)
        (fun _ => Orch.AgentOutcome.err "No such file or directory: claude")
        "TASK_COMPLETE" true false).iteration = 5 ∧
    (Orch.ralph_loop 5 (fun _ => 1)
        (fun _ => Orch.AgentOutcome.err "No such file or directory: claude")
        "TASK_COMPLETE" true false).completed = false :=
  ⟨by decide, by decide, by decide⟩

/-- C5 amended: when every invocation of the agent fails with an
exception (in particular file-not-found for an absent binary), the loop
logs the failure as a synthetic error output and keeps retrying: it
attempts one invocation per iteration for the whole budget and only then
ends exhausted with the `completed` flag clear. -/
theorem spec_c5_amended :
    ∀ (maxIter : Nat) (needsCount : Nat → Nat) (msg : Nat → String),
      (∀ i, needsCount i ≠ 0) →
      (Orch.ralph_loop maxIter needsCount (fun i => Orch.AgentOutcome.err (msg i))
          "TASK_COMPLETE" true false).invocations = maxIter ∧
      (Orch.ralph_loop maxIter needsCount (fun i => Orch.AgentOutcome.err (msg i))
          "TASK_COMPLETE" true false).iteration = maxIter ∧
      (Orch.ralph_loop maxIter needsCount (fun i => Orch.AgentOutcome.err (msg i))
          "TASK_COMPLETE" true false).completed = false := by
  intro maxIter needsCount msg h1
  obtain ⟨e1, e2, e3⟩ := ralph_no_progress needsCount
    (fun i => Orch.AgentOutcome.err (msg i)) "TASK_COMPLETE" h1 (fun i => rfl) maxIter
    { iteration := 0, invocations := 0, completed := false, lastOutput := "" } rfl
  exact ⟨by simpa [Orch.ralph_loop] using e1, by simpa [Orch.ralph_loop] using e2, e3⟩

/-- Witness for C5 amended with a budget of three iterations. -/
theorem spec_c5_witness :
    (Orch.ralph_loop 3 (fun _ => 2) (fun _ => Orch.AgentOutcome.err "nf")
        "TASK_COMPLETE" true false).invocations = 3 ∧
    (Orch.ralph_loop 3 (fun _ => 2) (fun _ => Orch.AgentOutcome.err "nf")
        "TASK_COMPLETE" true false).iteration = 3 ∧
    (Orch.ralph_loop 3 (fun _ => 2) (fun _ => Orch.AgentOutcome.err "nf")
        "TASK_COMPLETE" true false).completed = false :=
  spec_c5_amended 3 (fun _ => 2) (fun _ => "nf") (fun i => (by decide : (2 : Nat) ≠ 0))

/-- C1: admission to the deduplication ledger strictly follows durable
materialization.  For the filesystem watcher, an admission only ever
occurs with the payload copy and the action-file write both successful,
and then the emitted effects are exactly copy, write, admit, optionally
ledger persist, in that order; when the copy or the write fails, the
in-memory processed set and the persisted ledger file are unchanged and
the hash is not admitted, so the candidate stays eligible for a later
cycle.  The Gmail watcher path satisfies the same property with the
action-file write alone. -/
theorem spec_c1 :
    (∀ (readOk copyOk writeOk persistOk : Bool)
      (fileHash payloadName actionName : String) (s : WState),
      (Ev.admitMem fileHash ∈ (FsW.process_file false readOk copyOk writeOk persistOk
          fileHash payloadName actionName s).trace →
        copyOk = true ∧ writeOk = true ∧
        ((FsW.process_file false readOk copyOk writeOk persistOk fileHash payloadName
            actionName s).trace =
          [Ev.copyPayload payloadName, Ev.writeAction actionName, Ev.admitMem fileHash,
           Ev.persistLedger (s.processed ++ [fileHash])] ∨
         (FsW.process_file false readOk copyOk writeOk persistOk fileHash payloadName
            actionName s).trace =
          [Ev.copyPayload payloadName, Ev.writeAction actionName, Ev.admitMem fileHash])) ∧
      ((copyOk = false ∨ writeOk = false) →
        (FsW.process_file false readOk copyOk writeOk persistOk fileHash payloadName
          actionName s).state.processed = s.processed ∧
        (FsW.process_file false readOk copyOk writeOk persistOk fileHash payloadName
          actionName s).state.ledgerDisk = s.ledgerDisk ∧
        Ev.admitMem fileHash ∉ (FsW.process_file false readOk copyOk writeOk persistOk
          fileHash payloadName actionName s).trace)) ∧
    (∀ (parseOk writeOk persistOk : Bool) (msgId filename : String) (s : WState),
      (Ev.admitMem msgId ∈ (GmailW.create_action_file false parseOk writeOk persistOk
          msgId filename s).trace →
        writeOk = true ∧
        ((GmailW.create_action_file false parseOk writeOk persistOk msgId filename
            s).trace =
          [Ev.writeAction filename, Ev.admitMem msgId,
           Ev.persistLedger (s.processed ++ [msgId])] ∨
         (GmailW.create_action_file false parseOk writeOk persistOk msgId filename
            s).trace =
          [Ev.writeAction filename, Ev.admitMem msgId])) ∧
      (writeOk = false →
        (GmailW.create_action_file false parseOk writeOk persistOk msgId filename
          s).state.processed = s.processed ∧
        (GmailW.create_action_file false parseOk writeOk persistOk msgId filename
          s).state.ledgerDisk = s.ledgerDisk ∧
        Ev.admitMem msgId ∉ (GmailW.create_action_file false parseOk writeOk persistOk
          msgId filename s).trace)) := by
  constructor
  · intro readOk copyOk writeOk persistOk fileHash payloadName actionName s
    cases readOk
    · simp [FsW.process_file]
    · by_cases hc : fileHash ∈ s.processed
      · simp [FsW.process_file, hc]
      · cases copyOk
        · simp [FsW.process_file, hc]
        · cases writeOk
          · simp [FsW.process_file, hc]
          · cases persistOk <;> simp [FsW.process_file, hc]
  · intro parseOk writeOk persistOk msgId filename s
    cases parseOk
    · simp [GmailW.create_action_file]
    · cases writeOk
      · simp [GmailW.create_action_file]
      · cases persistOk <;> simp [GmailW.create_action_file]

/-- Witness for C1 on a fresh state: the successful path emits its
effects in order, and a failed action-file write leaves the ledger
state empty for both watchers. -/
theorem spec_c1_witness :
    ((FsW.process_file false true true true true "h" "p" "a" ⟨[], [], []⟩).trace =
        [Ev.copyPayload "p", Ev.writeAction "a", Ev.admitMem "h", Ev.persistLedger ["h"]] ∨
     (FsW.process_file false true true true true "h" "p" "a" ⟨[], [], []⟩).trace =
        [Ev.copyPayload "p", Ev.writeAction "a", Ev.admitMem "h"]) ∧
    (FsW.process_file false true true false true "h" "p" "a" ⟨[], [], []⟩).state.processed
        = [] ∧
    Ev.admitMem "h" ∉
      (FsW.process_file false true true false true "h" "p" "a" ⟨[], [], []⟩).trace ∧
    ((GmailW.create_action_file false true true true "m" "f" ⟨[], [], []⟩).trace =
        [Ev.writeAction "f", Ev.admitMem "m", Ev.persistLedger ["m"]] ∨
     (GmailW.create_action_file false true true true "m" "f" ⟨[], [], []⟩).trace =
        [Ev.writeAction "f", Ev.admitMem "m"]) ∧
    (GmailW.create_action_file false true false true "m" "f" ⟨[], [], []⟩).state.ledgerDisk
        = [] :=
  ⟨((spec_c1.1 true true true true "h" "p" "a" ⟨[], [], []⟩).1 (by decide)).2.2,
   ((spec_c1.1 true true false true "h" "p" "a" ⟨[], [], []⟩).2 (Or.inr rfl)).1,
   ((spec_c1.1 true true false true "h" "p" "a" ⟨[], [], []⟩).2 (Or.inr rfl)).2.2,
   ((spec_c1.2 true true true "m" "f" ⟨[], [], []⟩).1 (by decide)).2,
   ((spec_c1.2 true false true "m" "f" ⟨[], [], []⟩).2 rfl).2.1⟩
